import Mathlib

/-!
Verification development for the calendly-notion synchronizer.

The definitions below are a shallow embedding of the two Python sources
`import_events.py` and `get-events.py`.  Network interactions are modelled
by passing the response of each external call in as data (an `Except` value
for a call that can fail at the transport level), and the sequence of HTTP
requests the synchronizer issues is collected in an explicit trace.
Python `datetime` values are modelled by the structure `PyDatetime`,
`datetime.fromisoformat` by `pyFromIso`, and `str(datetime)` by `pyStr`.
-/

namespace CalendlyNotion

/-! ## Python datetime model -/

/-- Model of a Python `datetime.datetime` value without microseconds
(the strings handled by this program carry none).  `utcoffset` is the
total offset in minutes; `none` models a naive datetime. -/
structure PyDatetime where
  year : Nat
  month : Nat
  day : Nat
  hour : Nat
  minute : Nat
  second : Nat
  utcoffset : Option Int
deriving DecidableEq

/-- Gregorian leap-year rule, as used by Python `datetime`. -/
def isLeap (y : Nat) : Bool :=
  y % 4 == 0 && (y % 100 != 0 || y % 400 == 0)

/-- Number of days in a month (0 for an invalid month number; the parser
only produces months 1..12). -/
def daysInMonth (y m : Nat) : Nat :=
  match m with
  | 1 => 31
  | 2 => if isLeap y then 29 else 28
  | 3 => 31
  | 4 => 30
  | 5 => 31
  | 6 => 30
  | 7 => 31
  | 8 => 31
  | 9 => 30
  | 10 => 31
  | 11 => 30
  | 12 => 31
  | _ => 0

/-- Days in the months strictly before month `m` of year `y`. -/
def monthDaysBefore (y m : Nat) : Nat :=
  (List.range (m - 1)).foldl (fun a i => a + daysInMonth y (i + 1)) 0

/-- Leap years among the years 1..y-1. -/
def leapsBefore (y : Nat) : Nat :=
  ((y - 1) / 4 - (y - 1) / 100) + (y - 1) / 400

/-- Day count of a Gregorian date, counted from year 1 (proleptic). -/
def daysSinceYear1 (y m d : Nat) : Nat :=
  365 * (y - 1) + leapsBefore y + monthDaysBefore y m + (d - 1)

/-- Absolute instant of a datetime in seconds (offset subtracted),
matching how Python compares two offset-aware datetimes. -/
def instantSeconds (dt : PyDatetime) : Int :=
  ((daysSinceYear1 dt.year dt.month dt.day : Int) * 86400
      + (dt.hour : Int) * 3600 + (dt.minute : Int) * 60 + (dt.second : Int))
    - 60 * dt.utcoffset.getD 0

/-- Python `==` on two datetimes: naive values compare field by field,
aware values compare as instants, and a naive/aware mix is unequal. -/
def pyDtEq (a b : PyDatetime) : Bool :=
  match a.utcoffset, b.utcoffset with
  | none, none => decide (a = b)
  | some _, some _ => instantSeconds a == instantSeconds b
  | _, _ => false

/-- Numeric value of a decimal digit character. -/
def digit? (c : Char) : Option Nat :=
  if c.isDigit then some (c.toNat - 48) else none

/-- Two decimal digit characters as a number. -/
def d2n (a b : Char) : Option Nat :=
  match digit? a, digit? b with
  | some x, some y => some (10 * x + y)
  | _, _ => none

/-- Four decimal digit characters as a number. -/
def d4n (a b c d : Char) : Option Nat :=
  match d2n a b, d2n c d with
  | some x, some y => some (100 * x + y)
  | _, _ => none

/-- Range validity of a calendar date, as enforced by Python `datetime`. -/
def validDate (y mo d : Nat) : Bool :=
  1 ≤ y && y ≤ 9999 && 1 ≤ mo && mo ≤ 12 && 1 ≤ d && d ≤ daysInMonth y mo

/-- Range validity of a time of day. -/
def validTime (h mi s : Nat) : Bool :=
  h ≤ 23 && mi ≤ 59 && s ≤ 59

/-- Assemble a datetime from digit characters, validating ranges;
models the checks `datetime.fromisoformat` performs. -/
def mkDT (y1 y2 y3 y4 o1 o2 dd1 dd2 h1 h2 i1 i2 ss1 ss2 : Char)
    (off : Option Int) : Option PyDatetime :=
  match d4n y1 y2 y3 y4, d2n o1 o2, d2n dd1 dd2, d2n h1 h2, d2n i1 i2, d2n ss1 ss2 with
  | some y, some mo, some dd, some hh, some mi, some ss =>
    if validDate y mo dd && validTime hh mi ss then
      some ⟨y, mo, dd, hh, mi, ss, off⟩
    else none
  | _, _, _, _, _, _ => none

/-- Assemble an offset-aware datetime, validating the offset digits. -/
def mkDTOff (y1 y2 y3 y4 o1 o2 dd1 dd2 h1 h2 i1 i2 ss1 ss2 z1 z2 z3 z4 : Char)
    (neg : Bool) : Option PyDatetime :=
  match d2n z1 z2, d2n z3 z4 with
  | some zh, some zm =>
    if zh ≤ 23 && zm ≤ 59 then
      mkDT y1 y2 y3 y4 o1 o2 dd1 dd2 h1 h2 i1 i2 ss1 ss2
        (some (if neg then -((zh * 60 + zm : Nat) : Int) else ((zh * 60 + zm : Nat) : Int)))
    else none
  | _, _ => none

/-- Model of Python `datetime.fromisoformat` restricted to the shapes this
program produces: `YYYY-MM-DD*HH:MM:SS` optionally followed by `+HH:MM` or
`-HH:MM`, where `*` is any single separator character (Python accepts any
character in that position).  Returns `none` where Python raises
`ValueError`. -/
def pyFromIso (s : String) : Option PyDatetime :=
  match s.data with
  | [y1, y2, y3, y4, '-', o1, o2, '-', dd1, dd2, _, h1, h2, ':', i1, i2, ':', ss1, ss2] =>
    mkDT y1 y2 y3 y4 o1 o2 dd1 dd2 h1 h2 i1 i2 ss1 ss2 none
  | [y1, y2, y3, y4, '-', o1, o2, '-', dd1, dd2, _, h1, h2, ':', i1, i2, ':', ss1, ss2,
     '+', z1, z2, ':', z3, z4] =>
    mkDTOff y1 y2 y3 y4 o1 o2 dd1 dd2 h1 h2 i1 i2 ss1 ss2 z1 z2 z3 z4 false
  | [y1, y2, y3, y4, '-', o1, o2, '-', dd1, dd2, _, h1, h2, ':', i1, i2, ':', ss1, ss2,
     '-', z1, z2, ':', z3, z4] =>
    mkDTOff y1 y2 y3 y4 o1 o2 dd1 dd2 h1 h2 i1 i2 ss1 ss2 z1 z2 z3 z4 true
  | _ => none

/-- Decimal digit character for `d % 10`. -/
def digitChar (d : Nat) : Char :=
  Char.ofNat (48 + d % 10)

/-- Two-digit zero-padded rendering (the program only renders values
below 100 here, matching Python `%02d`). -/
def pad2l (n : Nat) : List Char :=
  [digitChar (n / 10 % 10), digitChar (n % 10)]

/-- Four-digit zero-padded rendering of a year below 10000. -/
def pad4l (n : Nat) : List Char :=
  [digitChar (n / 1000 % 10), digitChar (n / 100 % 10), digitChar (n / 10 % 10),
   digitChar (n % 10)]

/-- Rendering of a UTC offset as Python `str(datetime)` renders it
(empty for a naive value, otherwise sign and `HH:MM`). -/
def offChars (o : Option Int) : List Char :=
  match o with
  | none => []
  | some v =>
    if v < 0 then
      '-' :: pad2l ((-v).toNat / 60) ++ ':' :: pad2l ((-v).toNat % 60)
    else
      '+' :: pad2l (v.toNat / 60) ++ ':' :: pad2l (v.toNat % 60)

/-- Model of Python `str(datetime)`: date and time separated by a SPACE
(not the ISO `T`), followed by the offset when the value is aware. -/
def pyStr (dt : PyDatetime) : String :=
  ⟨pad4l dt.year ++ '-' :: pad2l dt.month ++ '-' :: pad2l dt.day
    ++ ' ' :: pad2l dt.hour ++ ':' :: pad2l dt.minute ++ ':' :: pad2l dt.second
    ++ offChars dt.utcoffset⟩

/-! ## Data model of the synchronizer (`import_events.py`) -/

/-- One event dict as consumed by `createNotionDatabasePages`
(keys `id`, `startTime`, `email`, `ticketLink`). -/
structure SyncEvent where
  id : String
  startTime : String
  email : String
  ticketLink : String
deriving DecidableEq

/-- One page of the target Notion database, projected to the parts the
program reads and writes: its page id, its `Event ID` title, and the
`start` value of its `Date & Time (Local)` property. -/
structure DBRecord where
  pageID : String
  eventID : String
  dateStart : String
deriving DecidableEq

/-- Values of the properties appearing in the JSON payloads. -/
inductive PropValue where
  | title (s : String)
  | richText (s : String)
  | people (ids : List String)
  | url (s : String)
  | dateStart (s : String)
  | select (s : String)
deriving DecidableEq

/-- One HTTP request issued by the synchronizer: a database query by
`Event ID`, a page creation carrying its full property payload, or a page
patch carrying its property payload. -/
inductive Request where
  | queryDB (eventID : String)
  | createPage (databaseID : String) (props : List (String × PropValue))
  | patchPage (pageID : String) (props : List (String × PropValue))
deriving DecidableEq

/-- Model of `startTime[:-1] + "+00:00"` (line 138 of
`import_events.py`): drop the final character unconditionally and append
the explicit UTC offset. -/
def normalizeStartTime (s : String) : String :=
  ⟨s.data.dropLast⟩ ++ "+00:00"

/-- The `properties` object of the create payload `myjson`, in source
order, including the `Person(s)` entry. -/
def buildCreateProperties (eventID userID ticketLink startTime : String) :
    List (String × PropValue) :=
  [("Event ID", .title eventID),
   ("Summary", .richText "Please Update"),
   ("Person(s)", .people [userID]),
   ("Ticket URL", .url ticketLink),
   ("Date & Time (Local)", .dateStart startTime),
   ("Shadow Friendly?", .select "Unknown"),
   ("Status", .select "Upcoming Call")]

/-- The `myjson[key].pop('Person(s)', None)` loop: over the two top-level
keys `parent` and `properties`, removing `Person(s)` where present; the
`parent` object has no such key, so the net effect is removal from the
properties. -/
def popPerson (props : List (String × PropValue)) : List (String × PropValue) :=
  props.filter (fun p => !(p.1 == "Person(s)"))

/-- The `properties` object sent by `updateStartTime`: a single
`Date & Time (Local)` entry. -/
def updatePatchProperties (newStartTime : String) : List (String × PropValue) :=
  [("Date & Time (Local)", .dateStart newStartTime)]

/-- Model of `isEventPresentInDB`: query the database for pages whose
`Event ID` title equals `eventID` and convert the result list to a
boolean (`bool(jsonOutput["results"])`). -/
def isEventPresentInDB (db : List DBRecord) (eventID : String) : Bool :=
  !(db.filter (fun r => r.eventID == eventID)).isEmpty

/-- Python dict lookup on an association list whose keys are unique. -/
def dictLookup (d : List (String × String)) (k : String) : Option String :=
  match d with
  | [] => none
  | (k2, v) :: rest => if k2 == k then some v else dictLookup rest k

/-- Python dict insertion: replace the value in place if the key exists,
otherwise append. -/
def dictInsert (d : List (String × String)) (k v : String) : List (String × String) :=
  if d.any (fun p => p.1 == k) then
    d.map (fun p => if p.1 == k then (k, v) else p)
  else d ++ [(k, v)]

/-- State threaded through the `createNotionDatabasePages` loop: the
records of the external database, the trace of issued requests, the
printed diagnostics, and the value of the Python local `userID` from the
most recent successful lookup (`none` while it is still unassigned). -/
structure SyncState where
  db : List DBRecord
  trace : List Request
  log : List String
  lastUserID : Option String
deriving DecidableEq

/-- Outcome of processing one event: continue with the next event,
return from the function (the `return` on a failed create), or an
uncaught Python exception propagating out. -/
inductive StepOutcome where
  | ok (s : SyncState)
  | abortReturn (s : SyncState)
  | exn (s : SyncState) (msg : String)
deriving DecidableEq

/-- The state carried by any step outcome. -/
def stateOf : StepOutcome → SyncState
  | .ok s => s
  | .abortReturn s => s
  | .exn s _ => s

/-- Requests issued while moving from state `s` to outcome `o`. -/
def newRequests (s : SyncState) (o : StepOutcome) : List Request :=
  (stateOf o).trace.drop s.trace.length

/-- Diagnostic printed when the host email is missing from the mapping. -/
def msgUserNotFound : String :=
  "User not found in the Workspace with the same email. Setting Person field as empty for this event."

/-- Model of the `if not isEventPresentInDB ... else ...` create branch:
print the attempt, POST the page, and on transport failure print the
error and RETURN from the function (the loop does not continue). -/
def createBranch (databaseID : String) (createOk : String → Bool)
    (mkPageID : String → String) (s : SyncState) (eventID startTime : String)
    (props : List (String × PropValue)) : StepOutcome :=
  let s2 : SyncState :=
    { s with log := s.log ++ ["Attempting to create event in DB with ID " ++ eventID ++ "."],
             trace := s.trace ++ [.createPage databaseID props] }
  if createOk eventID then
    .ok { s2 with db := s2.db ++ [⟨mkPageID eventID, eventID, startTime⟩] }
  else
    .abortReturn { s2 with log := s2.log ++ ["Error create event in Notion DB"] }

/-- Model of `doesEventNeedUpdating` together with `updateStartTime`:
re-query by `Event ID`, take `results[0]` (IndexError when empty), parse
both timestamps with `fromisoformat` (ValueError propagates), and either
do nothing when the instants are equal or PATCH only the date/time
property with `str(parsed incoming)`. -/
def updateBranch (s : SyncState) (eventID startTime : String) : StepOutcome :=
  let s2 : SyncState :=
    { s with log := s.log ++ ["Event with ID " ++ eventID ++ " already exists, checking if start time needs updating."],
             trace := s.trace ++ [.queryDB eventID] }
  match (s2.db.filter (fun r => r.eventID == eventID)).head? with
  | none => .exn s2 "IndexError: list index out of range"
  | some rec0 =>
    match pyFromIso startTime with
    | none => .exn s2 "ValueError: Invalid isoformat string"
    | some newDt =>
      match pyFromIso rec0.dateStart with
      | none => .exn s2 "ValueError: Invalid isoformat string"
      | some curDt =>
        if pyDtEq newDt curDt then
          .ok { s2 with log := s2.log ++ ["Times match, no action needed."] }
        else
          let newS := pyStr newDt
          .ok { s2 with
                log := s2.log ++ ["Times do not match, update to start time needed.",
                                  "Updating start time to " ++ newS ++ " for page ID " ++ rec0.pageID ++ "."],
                trace := s2.trace ++ [.patchPage rec0.pageID (updatePatchProperties newS)],
                db := s2.db.map (fun r =>
                  if r.pageID == rec0.pageID then { r with dateStart := newS } else r) }

/-- Loop body after the Python local `userID` holds the value `uid`
(either freshly looked up or stale from an earlier iteration): build the
payload, drop `Person(s)` when the lookup failed, issue the existence
query, and branch to create or update. -/
def processEventWithUser (databaseID : String) (createOk : String → Bool)
    (mkPageID : String → String) (s : SyncState) (emptyPerson : Bool)
    (uid : String) (ev : SyncEvent) (startTime : String) : StepOutcome :=
  let props0 := buildCreateProperties ev.id uid ev.ticketLink startTime
  let props := if emptyPerson then popPerson props0 else props0
  let s1 : SyncState := { s with trace := s.trace ++ [.queryDB ev.id], lastUserID := some uid }
  if isEventPresentInDB s.db ev.id then
    updateBranch s1 ev.id startTime
  else
    createBranch databaseID createOk mkPageID s1 ev.id startTime props

/-- Processing of one event of the `createNotionDatabasePages` loop.
The `try: userID = userDict[email] except: ...` block is modelled
faithfully to Python local-variable semantics: on a failed lookup the
local `userID` keeps whatever value an earlier iteration assigned, and if
no iteration ever assigned it, building `myjson` raises
`UnboundLocalError`, which nothing catches. -/
def processEvent (databaseID : String) (userDict : List (String × String))
    (createOk : String → Bool) (mkPageID : String → String)
    (s : SyncState) (ev : SyncEvent) : StepOutcome :=
  let startTime := normalizeStartTime ev.startTime
  match dictLookup userDict ev.email with
  | some uid => processEventWithUser databaseID createOk mkPageID s false uid ev startTime
  | none =>
    let s0 : SyncState := { s with log := s.log ++ [msgUserNotFound] }
    match s0.lastUserID with
    | none => .exn s0 "UnboundLocalError: local variable userID referenced before assignment"
    | some uid => processEventWithUser databaseID createOk mkPageID s0 true uid ev startTime

/-- Result of the whole loop: the final state, plus the message of the
uncaught exception when one aborted the run. -/
structure SyncResult where
  state : SyncState
  err : Option String
deriving DecidableEq

/-- The `for event in eventsArray` loop: process events in order,
stopping on the early `return` of a failed create (a normal return) or
on an uncaught exception. -/
def runEvents (databaseID : String) (userDict : List (String × String))
    (createOk : String → Bool) (mkPageID : String → String)
    (s : SyncState) : List SyncEvent → SyncResult
  | [] => ⟨s, none⟩
  | ev :: rest =>
    match processEvent databaseID userDict createOk mkPageID s ev with
    | .ok s2 => runEvents databaseID userDict createOk mkPageID s2 rest
    | .abortReturn s2 => ⟨s2, none⟩
    | .exn s2 msg => ⟨s2, some msg⟩

/-- Model of `createNotionDatabasePages`, starting from a database state
`db` with an empty request trace and the local `userID` unassigned. -/
def createNotionDatabasePages (databaseID : String)
    (userDict : List (String × String)) (createOk : String → Bool)
    (mkPageID : String → String) (db : List DBRecord)
    (events : List SyncEvent) : SyncResult :=
  runEvents databaseID userDict createOk mkPageID ⟨db, [], [], none⟩ events

/-! ## User directory loader (`getUsers`) -/

/-- One entry of the `GET /users` response: the optional
`person.email` attribute and the always-present `id`. -/
structure NotionUser where
  email : Option String
  id : String
deriving DecidableEq

/-- The dictionary-building loop of `getUsers`: skip entries without an
email, insert the rest. -/
def buildUserDict (users : List NotionUser) : List (String × String) :=
  users.foldl (fun d u =>
    match u.email with
    | none => d
    | some em => dictInsert d em u.id) []

/-- Model of `getUsers`.  The `requests.get` call is NOT wrapped in any
`try`, so a transport failure propagates to the caller unchanged; only a
per-user missing email is caught (that user is skipped). -/
def getUsers (resp : Except String (List NotionUser)) :
    Except String (List (String × String)) :=
  match resp with
  | .error e => .error e
  | .ok users => .ok (buildUserDict users)

/-- Model of `main` in `import_events.py` after the event fetch: the user
dictionary is built (a failure there propagates), and
`createNotionDatabasePages` is invoked UNCONDITIONALLY on the fetched
event sequence — there is no zero-event check and no early-exit
message. -/
def importMain (databaseID : String) (usersResp : Except String (List NotionUser))
    (events : List SyncEvent) (createOk : String → Bool)
    (mkPageID : String → String) (db : List DBRecord) :
    Except String SyncResult :=
  match getUsers usersResp with
  | .error e => .error e
  | .ok userDict => .ok (createNotionDatabasePages databaseID userDict createOk mkPageID db events)

/-! ## Event fetcher (`getCalendlyEvents` in both source files) -/

/-- One `questions_and_answers` entry of an invitee (both keys may be
absent in the JSON). -/
structure ApiQA where
  question : Option String
  answer : Option String
deriving DecidableEq

/-- One invitee of the `GET /scheduled_events/.../invitees` response. -/
structure ApiInvitee where
  questions_and_answers : List ApiQA
deriving DecidableEq

/-- One scheduled event of the `GET /scheduled_events` response,
projected to the fields the fetchers read. -/
structure ApiEvent where
  uri : String
  external_id : Option String
  start_time : Option String
  user_email : Option String
deriving DecidableEq

/-- The trailing URI segment (`uri.split('/')[-1]`). -/
def lastSegment (uri : String) : String :=
  (uri.splitOn "/").getLastD ""

/-- Model of `getEventInviteeTicketNumber` as a function of the invitee
response: on transport failure return `none` (caught and logged); on
success return the `answer` of the first question/answer pair whose
`question` equals exactly `"Ticket Number"`, or `none` when no invitee
carries such a question. -/
def getEventInviteeTicketNumber (resp : Except String (List ApiInvitee)) :
    Option String :=
  match resp with
  | .error _ => none
  | .ok invitees =>
    match invitees.findSome? (fun inv =>
        inv.questions_and_answers.findSome? (fun qa =>
          if qa.question == some "Ticket Number" then some qa.answer else none)) with
    | some ans => ans
    | none => none

/-- Rendering of an optional string inside a Python f-string:
`None` renders as the text `"None"`. -/
def pyFStrOpt : Option String → String
  | none => "None"
  | some s => s

/-- The event dict built by `getCalendlyEvents` in `import_events.py`:
note that `ticketLink` is an f-string, so an absent ticket number is
interpolated as the literal text `None` after the link prefix. -/
structure FetchedEvent where
  id : Option String
  startTime : Option String
  email : Option String
  ticketLink : String
deriving DecidableEq

/-- Per-event mapping of the `import_events.py` fetcher, with `env`
giving the invitee response for each event id. -/
def mkEventDetails (linkPref : String)
    (env : String → Except String (List ApiInvitee)) (e : ApiEvent) : FetchedEvent :=
  { id := e.external_id,
    startTime := e.start_time,
    email := e.user_email,
    ticketLink := linkPref ++ pyFStrOpt (getEventInviteeTicketNumber (env (lastSegment e.uri))) }

/-- Model of `getCalendlyEvents` in `import_events.py`: a transport
failure of the event-listing call degrades to the empty list; otherwise
every event of the response is mapped and included. -/
def getCalendlyEventsImport (linkPref : String)
    (env : String → Except String (List ApiInvitee))
    (resp : Except String (List ApiEvent)) : List FetchedEvent :=
  match resp with
  | .error _ => []
  | .ok events => events.map (mkEventDetails linkPref env)

/-- The event dict built by `getCalendlyEvents` in `get-events.py`:
here the ticket number stays an optional value (`ticketNumber`). -/
structure GEvent where
  external_id : Option String
  start_time : Option String
  email : Option String
  ticketNumber : Option String
deriving DecidableEq

/-- Per-event mapping of the `get-events.py` fetcher. -/
def mkGEventDetails (env : String → Except String (List ApiInvitee))
    (e : ApiEvent) : GEvent :=
  { external_id := e.external_id,
    start_time := e.start_time,
    email := e.user_email,
    ticketNumber := getEventInviteeTicketNumber (env (lastSegment e.uri)) }

/-- Model of `getCalendlyEvents` in `get-events.py`. -/
def getCalendlyEventsGE (env : String → Except String (List ApiInvitee))
    (resp : Except String (List ApiEvent)) : List GEvent :=
  match resp with
  | .error _ => []
  | .ok events => events.map (mkGEventDetails env)

/-- Whether the invitee response contains any question/answer pair whose
question is exactly `"Ticket Number"` (false also for a failed call). -/
def hasTicketQuestion (resp : Except String (List ApiInvitee)) : Bool :=
  match resp with
  | .error _ => false
  | .ok invitees =>
    invitees.any (fun inv =>
      inv.questions_and_answers.any (fun qa => qa.question == some "Ticket Number"))

/-- Model of `main` in `get-events.py` after the fetch: an empty event
list prints the exit message and returns early; otherwise a success
message is printed (there is no further work in that program). -/
def getEventsMain (events : List GEvent) : List String :=
  if events.isEmpty then
    ["The events array is empty, exiting the program."]
  else
    ["Events fetched successfully."]

/-! ## Shared fixtures and helper lemmas -/

/-- A database holding one synchronized record for event `abc123`. -/
def wDB : List DBRecord := [⟨"pg1", "abc123", "2024-11-29T20:15:00+00:00"⟩]

/-- A workspace user mapping with one known host email. -/
def wUD : List (String × String) := [("host@example.com", "user-1")]

/-- A fetched event whose start time equals the stored one. -/
def wEvSame : SyncEvent := ⟨"abc123", "2024-11-29T20:15:00Z", "host@example.com", "https://tickets/T-42"⟩

/-- A fetched event whose start time differs from the stored one. -/
def wEvDiff : SyncEvent := ⟨"abc123", "2024-11-29T20:16:00Z", "host@example.com", "https://tickets/T-42"⟩

/-- Dropping the length of the left part of an append. -/
theorem drop_len_append {α : Type} (l1 l2 : List α) : (l1 ++ l2).drop l1.length = l2 := by
  induction l1 with
  | nil => rfl
  | cons a as ih => simp [ih]

/-- Every database has at most one record per `Event ID`. -/
def atMostOnePerID (db : List DBRecord) : Prop :=
  ∀ tid, ((db.filter (fun r => r.eventID == tid)).length ≤ 1)

/-! ## Claim theorems -/

/-- C2: the start-time comparison is timezone-normalized.  A Z-suffixed
fetched start time is rewritten to explicit `+00:00` notation before any
comparison or write; the stored value `2024-11-29T20:15:00+00:00` and the
fetched value `2024-11-29T20:15:00Z` parse to the same instant, and the
synchronizer issues only the two existence/lookup queries for such an
event, with no update and no create request. -/
theorem claim_C2 :
    (∀ t : String, normalizeStartTime (t ++ "Z") = t ++ "+00:00")
    ∧ pyFromIso "2024-11-29T20:15:00+00:00" = some ⟨2024, 11, 29, 20, 15, 0, some 0⟩
    ∧ pyFromIso (normalizeStartTime "2024-11-29T20:15:00Z") = some ⟨2024, 11, 29, 20, 15, 0, some 0⟩
    ∧ pyDtEq ⟨2024, 11, 29, 20, 15, 0, some 0⟩ ⟨2024, 11, 29, 20, 15, 0, some 0⟩ = true
    ∧ processEvent "db1" wUD (fun _ => true) (fun e => e) ⟨wDB, [], [], none⟩ wEvSame
        = .ok ⟨wDB, [.queryDB "abc123", .queryDB "abc123"],
               ["Event with ID abc123 already exists, checking if start time needs updating.",
                "Times match, no action needed."], some "user-1"⟩ := by
  refine ⟨?_, by decide, by decide, by decide, by decide⟩
  intro t
  cases t with
  | mk data =>
    show String.mk ((data ++ ['Z']).dropLast) ++ "+00:00" = String.mk data ++ "+00:00"
    rw [List.dropLast_concat]

/-- C9: the pre-write normalization removes the final character of the
fetched start time unconditionally (whatever that character is) and
appends `+00:00`; an input already carrying an explicit offset is
corrupted rather than left unchanged, and the corrupted string no longer
parses. -/
theorem claim_C9 :
    (∀ (s : String) (c : Char), normalizeStartTime (s.push c) = s ++ "+00:00")
    ∧ normalizeStartTime "2024-11-29T20:15:00+00:00" = "2024-11-29T20:15:00+00:0+00:00"
    ∧ "2024-11-29T20:15:00+00:0+00:00" ≠ "2024-11-29T20:15:00+00:00"
    ∧ pyFromIso "2024-11-29T20:15:00+00:0+00:00" = none := by
  refine ⟨?_, by decide, by decide, by decide⟩
  intro s c
  cases s with
  | mk data =>
    show String.mk ((data ++ [c]).dropLast) ++ "+00:00" = String.mk data ++ "+00:00"
    rw [List.dropLast_concat]

/-- C6 counterexample: a transport failure of the user-listing call is
NOT caught — `getUsers` has no try/except around its request — so the
failure propagates unchanged instead of degrading to an empty
email-to-identifier mapping. -/
theorem claim_C6_counterexample :
    getUsers (Except.error "ConnectionError") = Except.error "ConnectionError"
    ∧ getUsers (Except.error "ConnectionError")
        ≠ Except.ok ([] : List (String × String)) := by
  exact ⟨rfl, fun h => Except.noConfusion h⟩

/-- C6 amended: a transport failure of the user-listing call propagates
unhandled and aborts the run before any synchronization; only a per-user
missing email degrades (that user is skipped from the mapping). -/
theorem claim_C6_amended :
    (∀ e, getUsers (Except.error e) = Except.error e)
    ∧ (∀ e databaseID events createOk mkPageID db,
        importMain databaseID (Except.error e) events createOk mkPageID db
          = Except.error e)
    ∧ getUsers (Except.ok [⟨none, "id0"⟩, ⟨some "a@b.com", "id1"⟩])
        = Except.ok [("a@b.com", "id1")] := by
  exact ⟨fun e => rfl, fun e databaseID events createOk mkPageID db => rfl, rfl⟩

/-- C8 counterexample: with zero fetched events, `main` of
`import_events.py` does not return early and prints no empty-events
message; it invokes the synchronizer on the empty sequence, which
performs no requests and logs nothing. -/
theorem claim_C8_counterexample :
    importMain "db1" (Except.ok []) [] (fun _ => true) (fun e => e) []
      = Except.ok ⟨⟨[], [], [], none⟩, none⟩
    ∧ (createNotionDatabasePages "db1" [] (fun _ => true) (fun e => e) [] []).state.log
        = [] := by
  exact ⟨rfl, rfl⟩

/-- C8 amended: only `get-events.py` returns early with a message on zero
fetched events; `import_events.py` has no zero-event check — its main
invokes the synchronizer with the empty sequence, which issues no
requests, logs nothing and completes normally. -/
theorem claim_C8_amended :
    getEventsMain [] = ["The events array is empty, exiting the program."]
    ∧ (∀ e es, getEventsMain (e :: es) = ["Events fetched successfully."])
    ∧ (∀ databaseID userDict createOk mkPageID db,
        createNotionDatabasePages databaseID userDict createOk mkPageID db []
          = ⟨⟨db, [], [], none⟩, none⟩)
    ∧ (∀ databaseID users createOk mkPageID db,
        importMain databaseID (Except.ok users) [] createOk mkPageID db
          = Except.ok ⟨⟨db, [], [], none⟩, none⟩) := by
  exact ⟨rfl, fun e es => rfl,
         fun databaseID userDict createOk mkPageID db => rfl,
         fun databaseID users createOk mkPageID db => rfl⟩

/-- An event whose host email is not in the workspace mapping. -/
def wEvGhost : SyncEvent := ⟨"bbb", "2024-11-30T10:00:00Z", "ghost@example.com", "https://tickets/T-7"⟩

/-- An event whose host email is in the mapping `wUD`. -/
def wEvKnown : SyncEvent := ⟨"aaa", "2024-11-29T20:15:00Z", "host@example.com", "https://tickets/T-1"⟩

/-- C3: evaluation of the code at the failing input.  First conjunct:
when the FIRST event of a run has a host email absent from the mapping,
the Python local `userID` has never been assigned, so building the
payload raises `UnboundLocalError` and the run aborts — the diagnostic is
printed but no create request is ever issued, contradicting the claimed
log-and-continue behavior.  Second conjunct: when an earlier event did
assign `userID`, the intended behavior is reached — the later
missing-email event is logged, its payload is submitted without the
`Person(s)` field, and the run continues. -/
theorem claim_C3_bug_eval :
    createNotionDatabasePages "db1" [] (fun _ => true) (fun e => "pg-" ++ e) [] [wEvGhost]
      = ⟨⟨[], [], [msgUserNotFound], none⟩,
         some "UnboundLocalError: local variable userID referenced before assignment"⟩
    ∧ (createNotionDatabasePages "db1" wUD (fun _ => true) (fun e => "pg-" ++ e) []
          [wEvKnown, wEvGhost]).err = none
    ∧ (createNotionDatabasePages "db1" wUD (fun _ => true) (fun e => "pg-" ++ e) []
          [wEvKnown, wEvGhost]).state.trace
        = [.queryDB "aaa",
           .createPage "db1" (buildCreateProperties "aaa" "user-1" "https://tickets/T-1" "2024-11-29T20:15:00+00:00"),
           .queryDB "bbb",
           .createPage "db1" (popPerson (buildCreateProperties "bbb" "user-1" "https://tickets/T-7" "2024-11-30T10:00:00+00:00"))]
    ∧ "Person(s)" ∉ (popPerson (buildCreateProperties "bbb" "user-1" "https://tickets/T-7" "2024-11-30T10:00:00+00:00")).map Prod.fst := by
  exact ⟨by decide, by decide, by decide, by decide⟩

/-- C4 counterexample: when the create request for the first event fails,
the synchronizer RETURNS from the loop (the `return` at line 196 of
`import_events.py`), so the second event is never processed — the trace
contains no request at all for `ev2`, refuting the claim that the loop
continues with the next event. -/
theorem claim_C4_counterexample :
    createNotionDatabasePages "db1" [("a@x.com", "id-a"), ("b@x.com", "id-b")]
        (fun i => !(i == "ev1")) (fun e => "pg-" ++ e) []
        [⟨"ev1", "2024-11-29T20:15:00Z", "a@x.com", "u1"⟩,
         ⟨"ev2", "2024-11-30T10:00:00Z", "b@x.com", "u2"⟩]
      = ⟨⟨[],
          [.queryDB "ev1",
           .createPage "db1" (buildCreateProperties "ev1" "id-a" "u1" "2024-11-29T20:15:00+00:00")],
          ["Attempting to create event in DB with ID ev1.", "Error create event in Notion DB"],
          some "id-a"⟩, none⟩
    ∧ Request.queryDB "ev2"
        ∉ [Request.queryDB "ev1",
           Request.createPage "db1" (buildCreateProperties "ev1" "id-a" "u1" "2024-11-29T20:15:00+00:00")] := by
  exact ⟨by decide, by decide⟩

/-- C4 amended: a failed create request is logged and the whole
synchronizer loop stops there — the remaining events of the fetched
sequence are not processed, so the run behaves exactly as if the failing
event were the last one. -/
theorem claim_C4_amended :
    ∀ databaseID userDict createOk mkPageID db (ev : SyncEvent) rest uid,
      dictLookup userDict ev.email = some uid →
      isEventPresentInDB db ev.id = false →
      createOk ev.id = false →
      createNotionDatabasePages databaseID userDict createOk mkPageID db (ev :: rest)
        = createNotionDatabasePages databaseID userDict createOk mkPageID db [ev] := by
  intro databaseID userDict createOk mkPageID db ev rest uid h1 h2 h3
  simp [createNotionDatabasePages, runEvents, processEvent, processEventWithUser,
        createBranch, h1, h2, h3]

/-- C4 witness: the amended statement at a concrete input. -/
theorem claim_C4_witness :
    dictLookup wUD wEvKnown.email = some "user-1"
    ∧ isEventPresentInDB [] wEvKnown.id = false
    ∧ createNotionDatabasePages "db1" wUD (fun _ => false) (fun e => e) [] [wEvKnown, wEvGhost]
        = createNotionDatabasePages "db1" wUD (fun _ => false) (fun e => e) [] [wEvKnown] :=
  ⟨by decide, by decide,
   claim_C4_amended "db1" wUD (fun _ => false) (fun e => e) [] wEvKnown [wEvGhost] "user-1"
     (by decide) (by decide) (by decide)⟩

/-- An invitee response carrying a question different from
`Ticket Number`. -/
def noTicketEnv : String → Except String (List ApiInvitee) :=
  fun _ => .ok [⟨[⟨some "Name", some "Bob"⟩]⟩]

/-- A raw scheduled event as returned by the event-listing call. -/
def wApiEv : ApiEvent :=
  ⟨"https://api.calendly.com/scheduled_events/abc", some "abc123",
   some "2024-11-29T20:15:00Z", some "host@example.com"⟩

/-- C5 counterexample: in the `import_events.py` fetcher the ticket field
of an event with no `Ticket Number` question does NOT resolve to an
absent value — the invitee-level lookup does return an absent value, but
the f-string interpolates it as the literal text `None` after the link
prefix, producing the present string `https://tickets/None`. -/
theorem claim_C5_counterexample :
    getEventInviteeTicketNumber (noTicketEnv "abc") = none
    ∧ pyFStrOpt none = "None"
    ∧ getCalendlyEventsImport "https://tickets/" noTicketEnv (.ok [wApiEv])
        = [⟨some "abc123", some "2024-11-29T20:15:00Z", some "host@example.com",
            "https://tickets/None"⟩] := by
  exact ⟨by decide, by decide, by decide⟩

/-- C5 amended: for every event whose invitees contain no question
exactly equal to `Ticket Number` (or whose invitee lookup fails), the
invitee-level lookup resolves to an absent value and the event is still
included in the returned sequence; the `get-events.py` fetcher stores
that absent value in its `ticketNumber` field, while the
`import_events.py` fetcher stores the link prefix concatenated with the
text `None` in its `ticketLink` field. -/
theorem claim_C5_amended :
    (∀ resp, hasTicketQuestion resp = false → getEventInviteeTicketNumber resp = none)
    ∧ (∀ env events, (getCalendlyEventsGE env (.ok events)).length = events.length)
    ∧ (∀ linkPref env events,
        (getCalendlyEventsImport linkPref env (.ok events)).length = events.length)
    ∧ (∀ env e, hasTicketQuestion (env (lastSegment e.uri)) = false →
        (mkGEventDetails env e).ticketNumber = none)
    ∧ (∀ linkPref env e, hasTicketQuestion (env (lastSegment e.uri)) = false →
        (mkEventDetails linkPref env e).ticketLink = linkPref ++ "None") := by
  have hnone : ∀ resp, hasTicketQuestion resp = false →
      getEventInviteeTicketNumber resp = none := by
    intro resp h
    cases resp with
    | error e => rfl
    | ok invitees =>
      simp only [hasTicketQuestion] at h
      rw [List.any_eq_false] at h
      have hfs : invitees.findSome? (fun inv =>
          inv.questions_and_answers.findSome? (fun qa =>
            if qa.question == some "Ticket Number" then some qa.answer else none)) = none := by
        rw [List.findSome?_eq_none_iff]
        intro inv hinv
        rw [List.findSome?_eq_none_iff]
        intro qa hqa
        have hq := h inv hinv
        rw [Bool.not_eq_true, List.any_eq_false] at hq
        exact if_neg (hq qa hqa)
      show (match invitees.findSome? (fun inv =>
          inv.questions_and_answers.findSome? (fun qa =>
            if qa.question == some "Ticket Number" then some qa.answer else none)) with
        | some ans => ans
        | none => none) = none
      rw [hfs]
  refine ⟨hnone, ?_, ?_, ?_, ?_⟩
  · intro env events
    simp [getCalendlyEventsGE]
  · intro linkPref env events
    simp [getCalendlyEventsImport]
  · intro env e h
    simp [mkGEventDetails, hnone _ h]
  · intro linkPref env e h
    simp [mkEventDetails, hnone _ h, pyFStrOpt]

/-- C5 witness: the amended statement at a concrete input. -/
theorem claim_C5_witness :
    hasTicketQuestion (noTicketEnv (lastSegment wApiEv.uri)) = false
    ∧ getEventInviteeTicketNumber (noTicketEnv (lastSegment wApiEv.uri)) = none
    ∧ (getCalendlyEventsGE noTicketEnv (.ok [wApiEv])).length = [wApiEv].length
    ∧ (mkGEventDetails noTicketEnv wApiEv).ticketNumber = none
    ∧ (mkEventDetails "https://tickets/" noTicketEnv wApiEv).ticketLink
        = "https://tickets/" ++ "None" :=
  ⟨by decide, claim_C5_amended.1 _ (by decide),
   claim_C5_amended.2.1 noTicketEnv [wApiEv],
   claim_C5_amended.2.2.2.1 noTicketEnv wApiEv (by decide),
   claim_C5_amended.2.2.2.2 "https://tickets/" noTicketEnv wApiEv (by decide)⟩

/-- C10: when an update is issued, the value written for the date/time
field is `str()` of the parsed datetime, whose date and time parts are
separated by a SPACE (character 10 of the rendering is always a space),
while the value written at creation keeps the ISO `T` separator of the
fetched string — so the stored textual format differs between created and
updated records even when both denote the same instant. -/
theorem claim_C10 :
    (∀ dt : PyDatetime, (pyStr dt).data.get? 10 = some ' ')
    ∧ pyStr ⟨2024, 11, 29, 20, 16, 0, some 0⟩ = "2024-11-29 20:16:00+00:00"
    ∧ (stateOf (processEvent "db1" wUD (fun _ => true) (fun e => e) ⟨wDB, [], [], none⟩ wEvDiff)).trace
        = [.queryDB "abc123", .queryDB "abc123",
           .patchPage "pg1" (updatePatchProperties "2024-11-29 20:16:00+00:00")]
    ∧ (stateOf (processEvent "db1" wUD (fun _ => true) (fun e => e) ⟨wDB, [], [], none⟩ wEvDiff)).db
        = [⟨"pg1", "abc123", "2024-11-29 20:16:00+00:00"⟩]
    ∧ normalizeStartTime "2024-11-29T20:16:00Z" = "2024-11-29T20:16:00+00:00"
    ∧ ("2024-11-29T20:16:00+00:00" : String).data.get? 10 = some 'T'
    ∧ "2024-11-29 20:16:00+00:00" ≠ "2024-11-29T20:16:00+00:00" := by
  exact ⟨fun dt => rfl, by decide, by decide, by decide, by decide, by decide, by decide⟩

/-- Patching a record's date value leaves the per-`Event ID` filter
lengths of the database unchanged. -/
theorem filterLen_map_setStart (db : List DBRecord) (pid v tid : String) :
    ((db.map (fun r => if r.pageID == pid then { r with dateStart := v } else r)).filter
        (fun r => r.eventID == tid)).length
      = ((db.filter (fun r => r.eventID == tid)).length) := by
  induction db with
  | nil => rfl
  | cons a as ih =>
    have he : ((if a.pageID == pid then { a with dateStart := v } else a : DBRecord)).eventID
        = a.eventID := by
      split <;> rfl
    simp only [List.map_cons, List.filter_cons, he]
    by_cases h2 : (a.eventID == tid) = true
    · rw [if_pos h2, if_pos h2]
      simp only [List.length_cons, ih]
    · rw [if_neg h2, if_neg h2]
      exact ih

/-- The update branch only issues its lookup query and possibly one patch
whose payload is `updatePatchProperties`, and it never changes how many
records exist per `Event ID`. -/
theorem updateBranch_spec (s : SyncState) (eid st : String) :
    ∃ tail,
      (stateOf (updateBranch s eid st)).trace = s.trace ++ tail
      ∧ (∀ r ∈ tail, r = Request.queryDB eid
          ∨ ∃ pid v, r = Request.patchPage pid (updatePatchProperties v))
      ∧ (∀ tid, ((stateOf (updateBranch s eid st)).db.filter (fun r => r.eventID == tid)).length
          = ((s.db.filter (fun r => r.eventID == tid)).length)) := by
  simp only [updateBranch]
  split
  · exact ⟨[.queryDB eid], rfl,
      by intro r hr; rw [List.mem_singleton] at hr; exact Or.inl hr,
      fun tid => rfl⟩
  · next rec0 h1 =>
    split
    · exact ⟨[.queryDB eid], rfl,
        by intro r hr; rw [List.mem_singleton] at hr; exact Or.inl hr,
        fun tid => rfl⟩
    · next newDt h2 =>
      split
      · exact ⟨[.queryDB eid], rfl,
          by intro r hr; rw [List.mem_singleton] at hr; exact Or.inl hr,
          fun tid => rfl⟩
      · next curDt h3 =>
        split
        · exact ⟨[.queryDB eid], rfl,
            by intro r hr; rw [List.mem_singleton] at hr; exact Or.inl hr,
            fun tid => rfl⟩
        · refine ⟨[.queryDB eid, .patchPage rec0.pageID (updatePatchProperties (pyStr newDt))],
            ?_, ?_, ?_⟩
          · show (s.trace ++ [Request.queryDB eid])
                ++ [Request.patchPage rec0.pageID (updatePatchProperties (pyStr newDt))]
              = s.trace ++ _
            rw [List.append_assoc]
            rfl
          · intro r hr
            rw [List.mem_cons, List.mem_singleton] at hr
            rcases hr with h | h
            · exact Or.inl h
            · exact Or.inr ⟨rec0.pageID, pyStr newDt, h⟩
          · intro tid
            exact filterLen_map_setStart s.db rec0.pageID (pyStr newDt) tid

/-- For an event already present in the database, the loop body after the
user lookup only queries and possibly patches: every new request is the
lookup query or a date-only patch, and the per-`Event ID` record counts
are unchanged. -/
theorem processEventWithUser_present (databaseID : String) (createOk : String → Bool)
    (mkPageID : String → String) (s : SyncState) (emptyPerson : Bool) (uid : String)
    (ev : SyncEvent) (st : String)
    (hp : isEventPresentInDB s.db ev.id = true) :
    ∃ tail,
      (stateOf (processEventWithUser databaseID createOk mkPageID s emptyPerson uid ev st)).trace
          = s.trace ++ (Request.queryDB ev.id :: tail)
      ∧ (∀ r ∈ tail, r = Request.queryDB ev.id
          ∨ ∃ pid v, r = Request.patchPage pid (updatePatchProperties v))
      ∧ (∀ tid,
          ((stateOf (processEventWithUser databaseID createOk mkPageID s emptyPerson uid ev st)).db.filter
              (fun r => r.eventID == tid)).length
            = ((s.db.filter (fun r => r.eventID == tid)).length)) := by
  simp only [processEventWithUser]
  split
  · obtain ⟨tail, h1, h2, h3⟩ :=
      updateBranch_spec { s with trace := s.trace ++ [.queryDB ev.id], lastUserID := some uid }
        ev.id st
    refine ⟨tail, ?_, h2, h3⟩
    rw [h1]
    show (s.trace ++ [Request.queryDB ev.id]) ++ tail = _
    rw [List.append_assoc]
    rfl
  · next hcond => exact absurd hp hcond

/-- For an event already present in the database, processing it issues no
create request and leaves the per-`Event ID` record counts unchanged,
whatever the user-lookup outcome. -/
theorem processEvent_present (databaseID : String) (userDict : List (String × String))
    (createOk : String → Bool) (mkPageID : String → String) (s : SyncState) (ev : SyncEvent)
    (hp : isEventPresentInDB s.db ev.id = true) :
    ∃ tail,
      (stateOf (processEvent databaseID userDict createOk mkPageID s ev)).trace = s.trace ++ tail
      ∧ (∀ r ∈ tail, r = Request.queryDB ev.id
          ∨ ∃ pid v, r = Request.patchPage pid (updatePatchProperties v))
      ∧ (∀ tid, ((stateOf (processEvent databaseID userDict createOk mkPageID s ev)).db.filter
            (fun r => r.eventID == tid)).length
          = ((s.db.filter (fun r => r.eventID == tid)).length)) := by
  simp only [processEvent]
  cases hl : dictLookup userDict ev.email with
  | some uid =>
    obtain ⟨tail, h1, h2, h3⟩ :=
      processEventWithUser_present databaseID createOk mkPageID s false uid ev
        (normalizeStartTime ev.startTime) hp
    refine ⟨Request.queryDB ev.id :: tail, h1, ?_, h3⟩
    intro r hr
    rw [List.mem_cons] at hr
    rcases hr with h | h
    · exact Or.inl h
    · exact h2 r h
  | none =>
    cases hlast : s.lastUserID with
    | none =>
      refine ⟨[], ?_, ?_, ?_⟩
      · show s.trace = s.trace ++ ([] : List Request)
        rw [List.append_nil]
      · intro r hr
        cases hr
      · intro tid
        rfl
    | some uid =>
      obtain ⟨tail, h1, h2, h3⟩ :=
        processEventWithUser_present databaseID createOk mkPageID
          { s with log := s.log ++ [msgUserNotFound] } true uid ev
          (normalizeStartTime ev.startTime) hp
      refine ⟨Request.queryDB ev.id :: tail, h1, ?_, h3⟩
      intro r hr
      rw [List.mem_cons] at hr
      rcases hr with h | h
      · exact Or.inl h
      · exact h2 r h

/-- Creating a page for an event with no existing record preserves the
at-most-one-record-per-`Event ID` invariant. -/
theorem createBranch_atMostOne (databaseID : String) (createOk : String → Bool)
    (mkPageID : String → String) (s : SyncState) (eid st : String)
    (props : List (String × PropValue))
    (hAbsent : s.db.filter (fun r => r.eventID == eid) = [])
    (h : atMostOnePerID s.db) :
    atMostOnePerID (stateOf (createBranch databaseID createOk mkPageID s eid st props)).db := by
  simp only [createBranch]
  split
  · intro tid
    show ((s.db ++ [({ pageID := mkPageID eid, eventID := eid, dateStart := st } : DBRecord)]).filter
        (fun r => r.eventID == tid)).length ≤ 1
    rw [List.filter_append]
    by_cases ht : (eid == tid : Bool) = true
    · have heq : eid = tid := by simpa using ht
      subst heq
      rw [hAbsent]
      simp
    · rw [Bool.not_eq_true] at ht
      have h2 : ([⟨mkPageID eid, eid, st⟩] : List DBRecord).filter
          (fun r => r.eventID == tid) = [] := by
        simp [List.filter, ht]
      rw [h2, List.append_nil]
      exact h tid
  · intro tid
    exact h tid

/-- The loop body after the user lookup preserves the invariant for an
absent event. -/
theorem processEventWithUser_atMostOne (databaseID : String) (createOk : String → Bool)
    (mkPageID : String → String) (s : SyncState) (emptyPerson : Bool) (uid : String)
    (ev : SyncEvent) (st : String)
    (hp : isEventPresentInDB s.db ev.id = false)
    (h : atMostOnePerID s.db) :
    atMostOnePerID
      (stateOf (processEventWithUser databaseID createOk mkPageID s emptyPerson uid ev st)).db := by
  simp only [processEventWithUser]
  split
  · next hcond => rw [hp] at hcond; cases hcond
  · next hcond =>
    have hAbsent : s.db.filter (fun r => r.eventID == ev.id) = [] := by
      simp only [isEventPresentInDB, Bool.not_eq_false'] at hp
      rwa [List.isEmpty_iff] at hp
    exact createBranch_atMostOne databaseID createOk mkPageID _ ev.id st _ hAbsent h

/-- Processing any single event preserves the invariant. -/
theorem processEvent_atMostOne (databaseID : String) (userDict : List (String × String))
    (createOk : String → Bool) (mkPageID : String → String) (s : SyncState) (ev : SyncEvent)
    (h : atMostOnePerID s.db) :
    atMostOnePerID (stateOf (processEvent databaseID userDict createOk mkPageID s ev)).db := by
  by_cases hp : isEventPresentInDB s.db ev.id = true
  · intro tid
    obtain ⟨tail, h1, h2, h3⟩ := processEvent_present databaseID userDict createOk mkPageID s ev hp
    rw [h3 tid]
    exact h tid
  · rw [Bool.not_eq_true] at hp
    simp only [processEvent]
    cases hl : dictLookup userDict ev.email with
    | some uid =>
      exact processEventWithUser_atMostOne databaseID createOk mkPageID s false uid ev
        (normalizeStartTime ev.startTime) hp h
    | none =>
      cases hlast : s.lastUserID with
      | none => exact h
      | some uid =>
        exact processEventWithUser_atMostOne databaseID createOk mkPageID
          { s with log := s.log ++ [msgUserNotFound] } true uid ev
          (normalizeStartTime ev.startTime) hp h

/-- The whole loop preserves the invariant. -/
theorem runEvents_atMostOne (databaseID : String) (userDict : List (String × String))
    (createOk : String → Bool) (mkPageID : String → String) :
    ∀ (events : List SyncEvent) (s : SyncState), atMostOnePerID s.db →
      atMostOnePerID (runEvents databaseID userDict createOk mkPageID s events).state.db := by
  intro events
  induction events with
  | nil => intro s h; exact h
  | cons ev rest ih =>
    intro s h
    have hstep := processEvent_atMostOne databaseID userDict createOk mkPageID s ev h
    unfold runEvents
    cases hpe : processEvent databaseID userDict createOk mkPageID s ev with
    | ok s2 =>
      rw [hpe] at hstep
      simp only [hpe]
      exact ih s2 hstep
    | abortReturn s2 =>
      rw [hpe] at hstep
      simp only [hpe]
      exact hstep
    | exn s2 msg =>
      rw [hpe] at hstep
      simp only [hpe]
      exact hstep

/-- C1: for every event whose `Event ID` already has a matching record
(the existence query is non-empty), the synchronizer issues no create
request while processing that event — it only queries and conditionally
patches the date/time field — and the number of records per distinct
`Event ID` never changes; consequently the whole run preserves the
at-most-one-record-per-`Event ID` invariant. -/
theorem claim_C1 :
    (∀ databaseID userDict createOk mkPageID (s : SyncState) (ev : SyncEvent),
        isEventPresentInDB s.db ev.id = true →
        (∀ did props, Request.createPage did props
            ∉ newRequests s (processEvent databaseID userDict createOk mkPageID s ev))
        ∧ (∀ tid, ((stateOf (processEvent databaseID userDict createOk mkPageID s ev)).db.filter
              (fun r => r.eventID == tid)).length
            = ((s.db.filter (fun r => r.eventID == tid)).length)))
    ∧ (∀ databaseID userDict createOk mkPageID db events,
        atMostOnePerID db →
        atMostOnePerID
          (createNotionDatabasePages databaseID userDict createOk mkPageID db events).state.db) := by
  constructor
  · intro databaseID userDict createOk mkPageID s ev hp
    obtain ⟨tail, h1, h2, h3⟩ := processEvent_present databaseID userDict createOk mkPageID s ev hp
    refine ⟨?_, h3⟩
    intro did props hmem
    rw [newRequests, h1, drop_len_append] at hmem
    rcases h2 _ hmem with h | ⟨pid, v, h⟩
    · exact Request.noConfusion h
    · exact Request.noConfusion h
  · intro databaseID userDict createOk mkPageID db events h
    exact runEvents_atMostOne databaseID userDict createOk mkPageID events ⟨db, [], [], none⟩ h

/-- C1 witness: the theorem applied to a database already holding the
record of event `abc123` and a fetched event with that same id. -/
theorem claim_C1_witness :
    isEventPresentInDB wDB wEvSame.id = true
    ∧ Request.createPage "db1"
          (buildCreateProperties "abc123" "user-1" "https://tickets/T-42" "2024-11-29T20:15:00+00:00")
        ∉ newRequests ⟨wDB, [], [], none⟩
            (processEvent "db1" wUD (fun _ => true) (fun e => e) ⟨wDB, [], [], none⟩ wEvSame)
    ∧ ((stateOf (processEvent "db1" wUD (fun _ => true) (fun e => e) ⟨wDB, [], [], none⟩ wEvSame)).db.filter
          (fun r => r.eventID == "abc123")).length
        = ((wDB.filter (fun r => r.eventID == "abc123")).length)
    ∧ atMostOnePerID
        (createNotionDatabasePages "db1" wUD (fun _ => true) (fun e => e) wDB [wEvSame]).state.db :=
  ⟨by decide,
   (claim_C1.1 "db1" wUD (fun _ => true) (fun e => e) ⟨wDB, [], [], none⟩ wEvSame (by decide)).1 _ _,
   (claim_C1.1 "db1" wUD (fun _ => true) (fun e => e) ⟨wDB, [], [], none⟩ wEvSame (by decide)).2 "abc123",
   claim_C1.2 "db1" wUD (fun _ => true) (fun e => e) wDB [wEvSame]
     (fun tid => le_trans (List.length_filter_le _ _) (by decide))⟩

/-- C7: an update request's payload contains only the
`Date & Time (Local)` property — every patch the update branch issues has
exactly that single key, so title, summary, person link, ticket URL and
the two select fields are never touched by an update — and when the
stored and fetched times parse to equal instants, processing the event
issues only the two queries and no write at all, leaving the database
unchanged. -/
theorem claim_C7 :
    (∀ (s : SyncState) (eid st pid : String) (props : List (String × PropValue)),
        Request.patchPage pid props ∈ newRequests s (updateBranch s eid st) →
        (∃ v, props = updatePatchProperties v)
        ∧ props.map Prod.fst = ["Date & Time (Local)"])
    ∧ (∀ databaseID userDict createOk mkPageID (s : SyncState) (ev : SyncEvent)
          (uid : String) (rec0 : DBRecord) (rest : List DBRecord) (a b : PyDatetime),
        dictLookup userDict ev.email = some uid →
        s.db.filter (fun r => r.eventID == ev.id) = rec0 :: rest →
        pyFromIso (normalizeStartTime ev.startTime) = some a →
        pyFromIso rec0.dateStart = some b →
        pyDtEq a b = true →
        processEvent databaseID userDict createOk mkPageID s ev
          = .ok ⟨s.db, (s.trace ++ [.queryDB ev.id]) ++ [.queryDB ev.id],
                 (s.log ++ ["Event with ID " ++ ev.id ++ " already exists, checking if start time needs updating."])
                   ++ ["Times match, no action needed."],
                 some uid⟩) := by
  constructor
  · intro s eid st pid props hmem
    obtain ⟨tail, h1, h2, h3⟩ := updateBranch_spec s eid st
    rw [newRequests, h1, drop_len_append] at hmem
    rcases h2 _ hmem with h | ⟨pid2, v, h⟩
    · exact Request.noConfusion h
    · injection h with hpid hprops
      exact ⟨⟨v, hprops⟩, by rw [hprops]; rfl⟩
  · intro databaseID userDict createOk mkPageID s ev uid rec0 rest a b hl hf ha hb heq
    have hp : isEventPresentInDB s.db ev.id = true := by
      simp [isEventPresentInDB, hf]
    simp only [processEvent, hl, processEventWithUser, hp, if_true, updateBranch]
    rw [hf]
    simp only [List.head?_cons, ha, hb, heq, if_true]

/-- C7 witness: the theorem applied to a concrete patch occurrence and to
the stored/fetched pair that denotes the same instant. -/
theorem claim_C7_witness :
    Request.patchPage "pg1" (updatePatchProperties "2024-11-29 20:16:00+00:00")
        ∈ newRequests ⟨wDB, [], [], none⟩
            (updateBranch ⟨wDB, [], [], none⟩ "abc123" "2024-11-29T20:16:00+00:00")
    ∧ ((∃ v, updatePatchProperties "2024-11-29 20:16:00+00:00" = updatePatchProperties v)
       ∧ (updatePatchProperties "2024-11-29 20:16:00+00:00").map Prod.fst = ["Date & Time (Local)"])
    ∧ processEvent "db1" wUD (fun _ => true) (fun e => e) ⟨wDB, [], [], none⟩ wEvSame
        = .ok ⟨wDB, ([] ++ [.queryDB "abc123"]) ++ [.queryDB "abc123"],
               (([] : List String)
                  ++ ["Event with ID " ++ "abc123" ++ " already exists, checking if start time needs updating."])
                 ++ ["Times match, no action needed."], some "user-1"⟩ :=
  ⟨by decide,
   claim_C7.1 ⟨wDB, [], [], none⟩ "abc123" "2024-11-29T20:16:00+00:00" "pg1"
     (updatePatchProperties "2024-11-29 20:16:00+00:00") (by decide),
   claim_C7.2 "db1" wUD (fun _ => true) (fun e => e) ⟨wDB, [], [], none⟩ wEvSame "user-1"
     ⟨"pg1", "abc123", "2024-11-29T20:15:00+00:00"⟩ []
     ⟨2024, 11, 29, 20, 15, 0, some 0⟩ ⟨2024, 11, 29, 20, 15, 0, some 0⟩
     (by decide) (by decide) (by decide) (by decide) (by decide)⟩

end CalendlyNotion
